import Mathlib

/-!
# Verification of the Hire_Harsh request-processing core

Shallow embedding, in Lean 4, of the request-processing orchestration layer
of the Hire_Harsh repository: the guardrails validators
(`app/modules/guardrails.py`), the three pipeline singletons
(`app/modules/rag_pipeline.py`, `app/modules/summary_pipeline.py`,
`app/modules/job_matching.py`), the vector-store lifecycle
(`app/modules/vectorstore_provider.py`) and the job-match route handler
(`app/api/routes.py`).

Python strings are modelled as `List Char`.  External collaborators
(LangChain chains, the Chroma store, document loaders, the filesystem) are
modelled as explicit environment records whose fields give the outcome of
each external call; Python exceptions are modelled with `Except`.
The optional `guardrails` dependency is modelled as unavailable
(`GUARDRAILS_AVAILABLE = False`), so content validation follows the
repository's own `MockGuard` fallback path; the real classifier branch
calls an external library that is not part of the repository.
-/

set_option maxRecDepth 2048

namespace HireHarsh

/-- Decidable equality of modelled call results. -/
instance exceptDecEq {ε α : Type} [DecidableEq ε] [DecidableEq α] :
    DecidableEq (Except ε α) := fun x y =>
  match x, y with
  | .ok a, .ok b =>
    if h : a = b then .isTrue (by rw [h])
    else .isFalse (by intro hc; injection hc; contradiction)
  | .error a, .error b =>
    if h : a = b then .isTrue (by rw [h])
    else .isFalse (by intro hc; injection hc; contradiction)
  | .ok _, .error _ => .isFalse (by intro hc; cases hc)
  | .error _, .ok _ => .isFalse (by intro hc; cases hc)

/-- Python strings, modelled as lists of characters. -/
abbrev PyStr := List Char

/-- Convert a Lean string literal to the `PyStr` model. -/
def str2l (s : String) : PyStr := s.toList

/-- The whitespace characters recognized by Python's `str.strip()` and the
`\s` regex class (ASCII range): space, `\t`, `\n`, `\x0b`, `\x0c`, `\r`. -/
def isPySpace (c : Char) : Bool :=
  c.toNat = 32 || c.toNat = 9 || c.toNat = 10 || c.toNat = 11 ||
  c.toNat = 12 || c.toNat = 13

/-- Python's `str.strip()`: remove leading and trailing whitespace. -/
def pyStrip (l : PyStr) : PyStr :=
  ((l.dropWhile isPySpace).reverse.dropWhile isPySpace).reverse

/-- Uppercase/lowercase pairs used to model Python's `str.lower()`:
the ASCII alphabet plus the German umlauts appearing in the repository's
keyword lists. -/
def upperLowerPairs : List (Char × Char) :=
  [('A', 'a'), ('B', 'b'), ('C', 'c'), ('D', 'd'), ('E', 'e'), ('F', 'f'),
   ('G', 'g'), ('H', 'h'), ('I', 'i'), ('J', 'j'), ('K', 'k'), ('L', 'l'),
   ('M', 'm'), ('N', 'n'), ('O', 'o'), ('P', 'p'), ('Q', 'q'), ('R', 'r'),
   ('S', 's'), ('T', 't'), ('U', 'u'), ('V', 'v'), ('W', 'w'), ('X', 'x'),
   ('Y', 'y'), ('Z', 'z'), ('Ä', 'ä'), ('Ö', 'ö'), ('Ü', 'ü')]

/-- Model of Python's `str.lower()` on a single character (restricted to the
alphabets the repository's validators use). -/
def pyLower (c : Char) : Char :=
  ((upperLowerPairs.find? (fun p => p.1 = c)).map Prod.snd).getD c

/-- Python's `str.lower()` on a whole string. -/
def pyLowerStr (l : PyStr) : PyStr := l.map pyLower

/-- Python's `needle in haystack` substring test. -/
def containsSub (w l : PyStr) : Bool := decide (w <:+: l)

/-- Python exceptions relevant to the core: `ValueError` versus any other
`Exception`, each carrying its message (`str(e)`). -/
inductive PyErr where
  | valueError (msg : PyStr)
  | exn (msg : PyStr)
deriving DecidableEq

/-- The `str(e)` text of a modelled Python exception. -/
def PyErr.msg : PyErr → PyStr
  | .valueError m => m
  | .exn m => m

/-- True exactly on `Except.ok`; models "the call returned without raising". -/
def exceptIsOk {ε α : Type} : Except ε α → Bool
  | .ok _ => true
  | .error _ => false

/-! ## Configuration (`app/config.py`, class `SecurityConfig`) -/

/-- Security-related limits from `SecurityConfig` in `app/config.py`. -/
structure SecurityConfig where
  maxQueryLength : Nat := 1000
  maxJobTextLength : Nat := 5000
  minJobTextLength : Nat := 50
deriving DecidableEq

/-- The defaults declared in `app/config.py`. -/
def defaultSecurity : SecurityConfig := {}

/-! ## Guardrails (`app/modules/guardrails.py`) -/

/-- The denylist of `MockGuard.validate` (guardrails unavailable). -/
def bannedWords : List PyStr :=
  [str2l "fuck", str2l "shit", str2l "damn"]

/-- Message of the exception raised by `MockGuard.validate`. -/
def inappropriateLanguageMsg : PyStr :=
  str2l "Content contains inappropriate language"

/-- Model of `MockGuard.validate(text)`: raises a generic `Exception` when the text
contains a denylisted word (checked on the lowercased text), otherwise
returns the text unchanged (modelled as `Unit`). -/
def mockGuardValidate (text : PyStr) : Except PyErr Unit :=
  if bannedWords.any (fun w => containsSub w (pyLowerStr text)) then
    .error (.exn inappropriateLanguageMsg)
  else
    .ok ()

/-- Message for queries shorter than 3 characters after trimming. -/
def tooShortMsg : PyStr := str2l "Query must be at least 3 characters long"

/-- Message for queries longer than the configured maximum (an f-string
embedding the configured limit). -/
def tooLongMsg (cfg : SecurityConfig) : PyStr :=
  str2l "Query too long. Maximum " ++ str2l (toString cfg.maxQueryLength) ++
  str2l " characters allowed."

/-- The content-relevance denylist of `validate_query_input`. -/
def irrelevantKeywords : List PyStr :=
  [str2l "weather", str2l "sports", str2l "cooking", str2l "movies",
   str2l "games"]

/-- Message for off-topic queries. -/
def relevanceMsg : PyStr :=
  str2l "Please ask questions related to professional qualifications and experience"

/-- Message substituted for injection-flavoured failures. -/
def invalidFormatMsg : PyStr :=
  str2l "Invalid query format detected. Please rephrase your question"

/-- Message substituted for profanity/toxicity failures. -/
def professionalMsg : PyStr :=
  str2l "Please rephrase your question professionally"

/-- The generic message substituted for unrecognized validation failures. -/
def genericQueryMsg : PyStr :=
  str2l "Unable to process this query. Please rephrase your question"

/-- The `try` body of `QueryValidator.validate_query_input`: content check
first (mock guard), then minimum trimmed length, then maximum raw length,
then content relevance; on success the query is returned unchanged. -/
def validateQueryTry (cfg : SecurityConfig) (query : PyStr) :
    Except PyErr PyStr :=
  match mockGuardValidate query with
  | .error e => .error e
  | .ok () =>
    if (pyStrip query).length < 3 then
      .error (.valueError tooShortMsg)
    else if query.length > cfg.maxQueryLength then
      .error (.valueError (tooLongMsg cfg))
    else if irrelevantKeywords.any
        (fun k => containsSub k (pyLowerStr query)) then
      .error (.valueError relevanceMsg)
    else
      .ok query

/-- The `except` handler of `validate_query_input`: inspects the lowercased
exception message; known categories are re-raised or mapped to their
category message, everything else becomes the generic message. -/
def routeQueryError (e : PyErr) : PyErr :=
  let m := pyLowerStr e.msg
  if containsSub (str2l "injection") m then
    .valueError invalidFormatMsg
  else if containsSub (str2l "profanity") m ||
      containsSub (str2l "toxic:") m then
    .valueError professionalMsg
  else if containsSub (str2l "query must be at least 3 characters long") m ||
      containsSub (str2l "query too long") m ||
      containsSub
        (str2l "please ask questions related to professional qualifications and experience")
        m then
    e
  else
    .valueError genericQueryMsg

/-- Model of `QueryValidator.validate_query_input` (guardrails unavailable). -/
def validate_query_input (cfg : SecurityConfig) (query : PyStr) :
    Except PyErr PyStr :=
  match validateQueryTry cfg query with
  | .ok s => .ok s
  | .error e => .error (routeQueryError e)

/-- The `config.chat_fallback_response` string from `app/config.py`. -/
def chatFallbackResponse : PyStr :=
  str2l "I\x27m sorry, but I cannot provide a response to that query."

/-- Model of `QueryValidator.validate_response_output` (guardrails unavailable):
runs the mock guard over the response and returns the response unchanged on
success, the configured fallback string on any exception. -/
def validate_response_output (response : PyStr) : PyStr :=
  match mockGuardValidate response with
  | .ok () => response
  | .error _ => chatFallbackResponse

/-! ## Job-text validation (`app/modules/guardrails.py`, `InputValidator`) -/

/-- A Python value passed where a `str` is expected: either an actual string
or a non-string object (with its truthiness).  `validate_job_text` guards
with `isinstance(text, str)`. -/
inductive PyVal where
  | str (s : PyStr)
  | nonStr (truthy : Bool)
deriving DecidableEq

/-- Python's regex `\w` word character (ASCII alphanumerics, underscore,
plus the German letters appearing in the keyword lists). -/
def pyWordChar (c : Char) : Bool :=
  c.isAlphanum || c = '_' ||
  c = 'ä' || c = 'ö' || c = 'ü' || c = 'Ä' || c = 'Ö' || c = 'Ü' || c = 'ß'

/-- The `\b` boundary on the left of a match: start of string or a preceding
non-word character. -/
def boundaryBefore : Option Char → Bool
  | none => true
  | some p => !pyWordChar p

/-- Does the (lowercase) keyword match, case-insensitively, at the head of
`l`, followed by a `\b` boundary (end of string or a non-word character)? -/
def kwHere : PyStr → PyStr → Bool
  | [], [] => true
  | [], c :: _ => !pyWordChar c
  | _ :: _, [] => false
  | k :: ks, c :: cs => (pyLower c = k) && kwHere ks cs

/-- Scan for a `\b keyword \b` match anywhere in the text, tracking the
previous character for the left boundary. -/
def kwSearchAux (kw : PyStr) : Option Char → PyStr → Bool
  | _, [] => false
  | prev, c :: cs =>
    (boundaryBefore prev && kwHere kw (c :: cs)) || kwSearchAux kw (some c) cs

/-- Model of `re.search(r"\b(kw)\b", text, re.IGNORECASE)` for one keyword. -/
def containsWordKw (kw text : PyStr) : Bool := kwSearchAux kw none text

/-- The English section keywords of `validate_job_text`. -/
def englishKeywords : List PyStr :=
  [str2l "job", str2l "position", str2l "role", str2l "responsibilities",
   str2l "skills", str2l "qualifications", str2l "experience",
   str2l "requirements"]

/-- The German section keywords of `validate_job_text`. -/
def germanKeywords : List PyStr :=
  [str2l "arbeit", str2l "position", str2l "rolle",
   str2l "verantwortlichkeiten", str2l "fähigkeiten",
   str2l "qualifikationen", str2l "erfahrung", str2l "anforderungen"]

/-- Does the text contain at least one English or German section keyword? -/
def hasAnyKeyword (text : PyStr) : Bool :=
  (englishKeywords ++ germanKeywords).any (fun kw => containsWordKw kw text)

/-- The dangerous HTML tag prefixes scanned for (case-insensitively) by
`validate_job_text`. -/
def dangerousTags : List PyStr :=
  [str2l "<script", str2l "<iframe", str2l "<object", str2l "<embed",
   str2l "<form", str2l "<img", str2l "<svg", str2l "<math", str2l "<link",
   str2l "<style", str2l "<video", str2l "<audio", str2l "<base",
   str2l "<meta", str2l "<body", str2l "<html", str2l "<input",
   str2l "<button"]

/-- Does the text contain one of the dangerous tags (case-insensitive
substring search, each pattern being literal text)? -/
def hasDangerousTag (text : PyStr) : Bool :=
  dangerousTags.any (fun p => containsSub p (pyLowerStr text))

/-- After `on` and at least one word character: match `\w*\s*=`. -/
def evWS : PyStr → Bool
  | [] => false
  | c :: cs => if c = '=' then true else if isPySpace c then evWS cs else false

/-- After `on` and at least one word character: more word characters, then
optional whitespace, then `=`. -/
def evAfterWord : PyStr → Bool
  | [] => false
  | c :: cs =>
    if c = '=' then true
    else if pyWordChar c then evAfterWord cs
    else if isPySpace c then evWS cs
    else false

/-- Does `on\w+\s*=` (case-insensitive) match at the head of the text? -/
def startsEvent : PyStr → Bool
  | c1 :: c2 :: c3 :: rest =>
    (pyLower c1 = 'o') && (pyLower c2 = 'n') && pyWordChar c3 &&
    evAfterWord rest
  | _ => false

/-- Model of `re.search(r"on\w+\s*=", text, re.IGNORECASE)`: a match at any
position. -/
def hasDangerousEvent : PyStr → Bool
  | [] => false
  | c :: cs => startsEvent (c :: cs) || hasDangerousEvent cs

/-- Message for over-long job text (f-string with the configured max). -/
def jobTooLongMsg (cfg : SecurityConfig) : PyStr :=
  str2l "Job description text is too long. Maximum " ++
  str2l (toString cfg.maxJobTextLength) ++ str2l " characters allowed."

/-- Message for job text lacking every section keyword. -/
def missingSectionsMsg : PyStr :=
  str2l "Job description text must contain key sections like \x27experience\x27, \x27position\x27, \x27role\x27, etc."

/-- Message for job text containing dangerous HTML tags. -/
def harmfulTagsMsg : PyStr :=
  str2l "Job description text contains potentially harmful HTML tags."

/-- Message for job text containing dangerous event handlers. -/
def harmfulEventsMsg : PyStr :=
  str2l "Job description text contains potentially harmful event handlers."

/-- Model of `InputValidator.validate_job_text`: returns `False` for falsy or
non-string input and for text shorter than the configured minimum after
stripping; raises `ValueError` for over-long text, missing section
keywords, dangerous tags, or dangerous event handlers; returns `True`
otherwise.  All checks after the length guard run on the stripped text. -/
def validate_job_text (cfg : SecurityConfig) (v : PyVal) :
    Except PyErr Bool :=
  match v with
  | .nonStr _ => .ok false
  | .str s =>
    if s = [] then .ok false
    else
      let t := pyStrip s
      if t.length < cfg.minJobTextLength then .ok false
      else if t.length > cfg.maxJobTextLength then
        .error (.valueError (jobTooLongMsg cfg))
      else if !hasAnyKeyword t then
        .error (.valueError missingSectionsMsg)
      else if hasDangerousTag t then
        .error (.valueError harmfulTagsMsg)
      else if hasDangerousEvent t then
        .error (.valueError harmfulEventsMsg)
      else .ok true

/-! ## Shared document / turn model -/

/-- A LangChain document with its `source` metadata tag. -/
structure SourceDoc where
  content : PyStr
  source : PyStr
deriving DecidableEq

/-- A turn of the chat pipeline's conversation history
(`HumanMessage` / `AIMessage`). -/
inductive Turn where
  | human (content : PyStr)
  | assistant (content : PyStr)
deriving DecidableEq

/-! ## Chat pipeline (`app/modules/rag_pipeline.py`) -/

/-- The dictionary returned by `qa_chain.invoke`: the validated answer and
the retrieved context documents. -/
structure ChainOutput where
  answer : PyStr
  context : List SourceDoc
deriving DecidableEq

/-- External collaborators of `ChatRAGPipeline.get_completion`: the outcome
of `_initialize_qa_chain` (which runs before the `try` block) and of
`qa_chain.invoke` as a function of the input and the history snapshot. -/
structure ChatEnv where
  initResult : Except PyErr Unit
  invoke : PyStr → List Turn → Except PyErr ChainOutput

/-- The dictionary returned by `get_completion`.  `answerAnswer` is the
`"answer"` entry of the nested answer dictionary; the chat result carries
no `"error"` key on any path, modelled by `error` being `none` always. -/
structure ChatResponse where
  answerAnswer : PyStr
  sources : List SourceDoc
  error : Option PyStr
deriving DecidableEq

/-- The result of `config.chat_fallback_response.format(candidate_name=...)`: the
configured template contains no placeholder, so formatting leaves it
unchanged. -/
def chatFallbackFormatted : PyStr := chatFallbackResponse

/-- Model of `ChatRAGPipeline.get_completion`.  Chain initialization runs before the
`try` block, so its exception escapes.  Inside the `try`: the human turn is
appended to the history, the chain is invoked on the snapshot, and on
success the assistant turn is appended; a `ValueError` yields the error
message as the answer, any other exception yields the formatted fallback;
in both failure cases the assistant turn is not appended. -/
def get_completion (env : ChatEnv) (hist : List Turn) (query : PyStr) :
    Except PyErr (ChatResponse × List Turn) :=
  match env.initResult with
  | .error e => .error e
  | .ok () =>
    let hist1 := hist ++ [Turn.human query]
    match env.invoke query hist1 with
    | .ok out =>
      .ok ({ answerAnswer := out.answer, sources := out.context,
             error := none }, hist1 ++ [Turn.assistant out.answer])
    | .error (.valueError m) =>
      .ok ({ answerAnswer := m, sources := [], error := none }, hist1)
    | .error (.exn _) =>
      .ok ({ answerAnswer := chatFallbackFormatted, sources := [],
             error := none }, hist1)

/-- The per-call data of one sequential `get_completion` call: the query
and the outcome of the chain invocation on that call. -/
abbrev ChatCall := PyStr × Except PyErr ChainOutput

/-- The answer of a successful chain invocation (unused default for the
failure case). -/
def outAnswer : Except PyErr ChainOutput → PyStr
  | .ok out => out.answer
  | .error _ => []

/-- Run `K` sequential `get_completion` calls (chain already initialized, no
concurrent callers), threading the conversation history, starting from the
empty history of a fresh pipeline. -/
def runChatFrom (hist : List Turn) (calls : List ChatCall) : List Turn :=
  calls.foldl
    (fun h c =>
      match get_completion { initResult := .ok (), invoke := fun _ _ => c.2 }
          h c.1 with
      | .ok (_, h') => h'
      | .error _ => h)
    hist

/-- Sequential chat calls from the fresh (empty) history. -/
def runChatCalls (calls : List ChatCall) : List Turn := runChatFrom [] calls

/-- The human/assistant turn sequence the spec expects: one human and one
assistant turn per call, in call order. -/
def expectedTurns : List ChatCall → List Turn
  | [] => []
  | c :: rest => Turn.human c.1 :: Turn.assistant (outAnswer c.2) ::
      expectedTurns rest

/-! ## Summary pipeline (`app/modules/summary_pipeline.py`) -/

/-- External collaborators of `SummaryGenerator.generate_summary`: the
outcome of `_initialize_summary_chain` (runs before the `try` block), of
`DocumentHandler` construction plus `load_documents`, and of
`summary_chain.invoke`. -/
structure SummaryEnv where
  initResult : Except PyErr Unit
  loadDocs : Except PyErr (List SourceDoc)
  invoke : List SourceDoc → Except PyErr PyStr

/-- The dictionary returned by `generate_summary`.  The success dictionary
carries `style` and `timestamp` but no `error`; the failure dictionary
carries `error` but neither `style` nor `timestamp`; absent keys are
modelled as `none`.  The timestamp comes from the tracing collaborator and
is modelled as `none`. -/
structure SummaryResult where
  summary_md : PyStr
  skills : List PyStr
  style : Option PyStr
  timestamp : Option PyStr
  error : Option PyStr
deriving DecidableEq

/-- The fallback summary text of the `except` handler. -/
def summaryFallbackMsg : PyStr :=
  str2l "Unable to generate summary. Please try again."

/-- Model of `SummaryGenerator.generate_summary`. -/
def generate_summary (env : SummaryEnv) (style : PyStr) :
    Except PyErr SummaryResult :=
  match env.initResult with
  | .error e => .error e
  | .ok () =>
    match env.loadDocs with
    | .error e =>
      .ok { summary_md := summaryFallbackMsg, skills := [], style := none,
            timestamp := none, error := some e.msg }
    | .ok docs =>
      match env.invoke docs with
      | .ok r =>
        .ok { summary_md := r, skills := [], style := some style,
              timestamp := none, error := none }
      | .error e =>
        .ok { summary_md := summaryFallbackMsg, skills := [], style := none,
              timestamp := none, error := some e.msg }

/-! ## Job-matching pipeline (`app/modules/job_matching.py`) -/

/-- A processed job-description document (`page_content` plus the `source`
metadata entry). -/
structure JmDoc where
  page_content : PyStr
  source : PyStr
deriving DecidableEq

/-- External collaborators of `JobMatchingAnalyzer.analyze_job_match`: the
outcome of `_initialize_matching_chain` (runs before the `try` block), of
the vector-store retrieval, and of `matching_chain.invoke`. -/
structure JobMatchEnv where
  initResult : Except PyErr Unit
  retrieve : PyStr → Except PyErr (List SourceDoc)
  invoke : List SourceDoc → Except PyErr PyStr

/-- The dictionary returned by `analyze_job_match`.  The success dictionary
has `analysis`, `job_source`, `match_timestamp`, `relevant_sections`; the
failure dictionary has `analysis`, `error`, `job_source`.  Absent keys are
`none`; the timestamp comes from tracing and is modelled as `none`. -/
structure JobMatchResult where
  analysis : PyStr
  job_source : PyStr
  match_timestamp : Option PyStr
  relevant_sections : Option (List PyStr)
  error : Option PyStr
deriving DecidableEq

/-- The fallback analysis text of the `except` handler. -/
def jobMatchFallbackMsg : PyStr :=
  str2l "Unable to complete job matching analysis. Please try again."

/-- The prefix prepended to the job text: `f"JOB DESCRIPTION:\n{...}"`. -/
def jobDescHeader : PyStr := str2l "JOB DESCRIPTION:\n"

/-- Model of `JobMatchingAnalyzer.analyze_job_match`: retrieval, then re-validation
of the prefixed job text through `validate_job_text`, then the matching
chain over the job document plus the retrieved documents; any exception in
the `try` body yields the fallback dictionary with an `error` entry. -/
def analyze_job_match (cfg : SecurityConfig) (env : JobMatchEnv)
    (jd : JmDoc) : Except PyErr JobMatchResult :=
  match env.initResult with
  | .error e => .error e
  | .ok () =>
    let fallback : PyErr → JobMatchResult := fun e =>
      { analysis := jobMatchFallbackMsg, job_source := jd.source,
        match_timestamp := none, relevant_sections := none,
        error := some e.msg }
    match env.retrieve jd.page_content with
    | .error e => .ok (fallback e)
    | .ok relevantDocs =>
      let jobContent := jobDescHeader ++ jd.page_content
      match validate_job_text cfg (.str jobContent) with
      | .error e => .ok (fallback e)
      | .ok _ =>
        match env.invoke
            ({ content := jobContent, source := str2l "job_description" } ::
              relevantDocs) with
        | .error e => .ok (fallback e)
        | .ok r =>
          .ok { analysis := r, job_source := jd.source,
                match_timestamp := none,
                relevant_sections := some (relevantDocs.map SourceDoc.source),
                error := none }

/-! ## Lazy chain construction (shared double-checked pattern) -/

/-- Abstract identity of a built chain. -/
abbrev Chain := Nat

/-- One invocation's pass through `_initialize_*_chain` (sequential
setting): if the chain field is already non-null the build is skipped
(both the unlocked and the locked check take this path); otherwise the
build body runs with the given outcome — on success the chain field is
assigned and the successful-build counter increments, on an exception the
field stays null. -/
def initChainStep (st : Option Chain × Nat) (attempt : Except PyErr Chain) :
    Option Chain × Nat :=
  match st.1 with
  | some c => (some c, st.2)
  | none =>
    match attempt with
    | .ok c => (some c, st.2 + 1)
    | .error _ => (none, st.2)

/-- A sequence of invocations, each carrying the build outcome its
invocation would produce, threaded through the chain field and the
successful-build counter. -/
def runInitAttempts (st : Option Chain × Nat)
    (attempts : List (Except PyErr Chain)) : Option Chain × Nat :=
  attempts.foldl initChainStep st

/-! ## Vector store lifecycle (`app/modules/vectorstore_provider.py`) -/

/-- A raw loaded document, before its `source` metadata is tagged. -/
structure RawDoc where
  content : PyStr
deriving DecidableEq

/-- Tag a loaded document with its source (`doc.metadata["source"] = ...`). -/
def tagDoc (src : PyStr) (d : RawDoc) : SourceDoc :=
  { content := d.content, source := src }

/-- The built/loaded vector store, carrying its chunk collection. -/
structure VStore where
  chunks : List SourceDoc
deriving DecidableEq

/-- External collaborators of `setup_vectorstore`: the two document-loader
calls, the text splitter (as a function of chunk size, overlap and the
documents), and the embedding + `Chroma.from_documents` step. -/
structure BuildEnv where
  cvLoad : Except PyErr (List RawDoc)
  aboutLoad : Except PyErr (List RawDoc)
  split : Nat → Nat → List SourceDoc → List SourceDoc
  chromaBuild : List SourceDoc → Except PyErr Unit

/-- The CV documents after the first `try`/`except`: a failed load yields
the empty list, a successful load is tagged `"cv"`. -/
def loadedCv (b : BuildEnv) : List SourceDoc :=
  match b.cvLoad with
  | .ok ds => ds.map (tagDoc (str2l "cv"))
  | .error _ => []

/-- The About-Me documents after the second `try`/`except`, tagged
`"about_me"` on success. -/
def loadedAbout (b : BuildEnv) : List SourceDoc :=
  match b.aboutLoad with
  | .ok ds => ds.map (tagDoc (str2l "about_me"))
  | .error _ => []

/-- The document chunks produced by `setup_vectorstore`: the combined
tagged documents split with `chunk_size=1000, chunk_overlap=200` (the
literal arguments in the source). -/
def buildChunks (b : BuildEnv) : List SourceDoc :=
  b.split 1000 200 (loadedCv b ++ loadedAbout b)

/-- Model of `VectorStoreManager.setup_vectorstore`: both loads are individually
guarded, the combined documents are split and handed to the embedding +
persistence step, whose failure (the only remaining failure point)
propagates. -/
def setup_vectorstore (b : BuildEnv) : Except PyErr VStore :=
  match b.chromaBuild (buildChunks b) with
  | .ok () => .ok ⟨buildChunks b⟩
  | .error e => .error e

/-- External collaborators of `get_vectorstore` and its population probe:
directory existence, `os.listdir`, the presence of recognized Chroma files,
the probe's load-and-count step, and the final load of an existing store. -/
structure ProbeEnv where
  dirExists : Bool
  listdir : Except PyErr (List PyStr)
  hasChromaFiles : Bool
  loadAndCount : Except PyErr Nat
  loadExisting : Except PyErr VStore

/-- Model of `VectorStoreManager._is_vectorstore_populated`: empty listing, missing
Chroma files, a zero count, or any exception anywhere in the probe all
yield `False`. -/
def isVectorstorePopulated (p : ProbeEnv) : Bool :=
  match p.listdir with
  | .error _ => false
  | .ok files =>
    if files.isEmpty then false
    else if !p.hasChromaFiles then false
    else
      match p.loadAndCount with
      | .error _ => false
      | .ok n => !(n = 0)

/-- Model of `VectorStoreManager.get_vectorstore`: rebuild when the directory is
missing or the probe reports not-populated, otherwise load the existing
store. -/
def get_vectorstore (p : ProbeEnv) (b : BuildEnv) : Except PyErr VStore :=
  if !p.dirExists || !isVectorstorePopulated p then setup_vectorstore b
  else p.loadExisting

/-- A store is populated when it holds at least one chunk. -/
def populatedStore (v : VStore) : Bool := !v.chunks.isEmpty

/-! ## Document handler and job-match route
(`app/modules/vectorstore_provider.py`, `app/api/routes.py`) -/

/-- Model of `re.sub(r"\s+", " ", text)`: collapse each whitespace run into a single
space. -/
def normalizeWs : PyStr → PyStr
  | [] => []
  | [c] => if isPySpace c then [' '] else [c]
  | c1 :: c2 :: rest =>
    if isPySpace c1 && isPySpace c2 then normalizeWs (c2 :: rest)
    else (if isPySpace c1 then ' ' else c1) :: normalizeWs (c2 :: rest)

/-- Message of the minimum-length `ValueError` of `process_text`. -/
def atLeastMsg (cfg : SecurityConfig) : PyStr :=
  str2l "Job description text must be at least " ++
  str2l (toString cfg.minJobTextLength) ++ str2l " characters"

/-- Model of `DocumentHandler.process_text`: empty or under-minimum (after
stripping) text raises the length `ValueError`; then `validate_job_text`
runs on the raw text (its boolean result is ignored, its exceptions
propagate); then the text is stripped, whitespace-normalized and wrapped in
a document tagged `"text_input"`. -/
def process_text (cfg : SecurityConfig) (text : PyStr) :
    Except PyErr JmDoc :=
  if text = [] ∨ (pyStrip text).length < cfg.minJobTextLength then
    .error (.valueError (atLeastMsg cfg))
  else
    match validate_job_text cfg (.str text) with
    | .error e => .error e
    | .ok _ =>
      .ok { page_content := normalizeWs (pyStrip text),
            source := str2l "text_input" }

/-- Message of the empty-input `ValueError` of `process_job_description`. -/
def requiredMsg : PyStr := str2l "Job description text is required"

/-- Model of `process_job_description` (module-level, using the loaded config, here
the declared defaults). -/
def process_job_description (text : PyStr) : Except PyErr JmDoc :=
  if text = [] then .error (.valueError requiredMsg)
  else process_text defaultSecurity text

/-- The HTTP outcome of the job-match endpoint. -/
inductive HttpResult where
  | ok (analysis : PyStr) (source : PyStr) (relevant_sections : List PyStr)
  | clientError (status : Nat) (detail : PyStr)
  | serverError (status : Nat) (detail : PyStr)
deriving DecidableEq

/-- The route's collaborator: the `analyze_job_match` call (which may
itself raise, e.g. from chain initialization). -/
structure RouteEnv where
  analyzeRun : JmDoc → Except PyErr JobMatchResult

/-- The `except` handlers of `job_match_endpoint` in `app/api/routes.py`:
`ValueError` becomes HTTP 400 with the error message as detail, any other
exception becomes HTTP 500. -/
def job_match_endpoint (env : RouteEnv) (text : PyStr) : HttpResult :=
  match process_job_description text with
  | .error (.valueError m) => .clientError 400 m
  | .error (.exn _) => .serverError 500 (str2l "Job matching analysis failed")
  | .ok jd =>
    match env.analyzeRun jd with
    | .error (.valueError m) => .clientError 400 m
    | .error (.exn _) =>
      .serverError 500 (str2l "Job matching analysis failed")
    | .ok r => .ok r.analysis r.job_source (r.relevant_sections.getD [])

/-! ## Concrete inputs and environments used by witnesses and
counterexamples -/

/-- A query of 1001 whitespace characters: over-long, but stripped to
nothing. -/
def overlongSpaces : PyStr := List.replicate 1001 ' '

/-- A query of 1001 ordinary characters: over-long and content-clean. -/
def longAs : PyStr := List.replicate 1001 'a'

/-- A well-formed accepted chat query. -/
def sampleQuery : PyStr := str2l "Tell me about your skills"

/-- The claim-side condition under which `validate_job_text` returns
`False`: empty input, non-string input, or text shorter than the
configured minimum after trimming. -/
def jobFalseCond (cfg : SecurityConfig) : PyVal → Bool
  | .nonStr _ => true
  | .str s =>
    s.isEmpty || decide ((pyStrip s).length < cfg.minJobTextLength)

/-- A small limit configuration used by the C10 witness. -/
def smallJobCfg : SecurityConfig :=
  { maxQueryLength := 1000, maxJobTextLength := 80, minJobTextLength := 10 }

/-- A chat environment whose chain initialization raises (e.g. the vector
store rebuild inside `_initialize_qa_chain` fails). -/
def chatInitFailureEnv : ChatEnv :=
  { initResult := .error (.exn (str2l "vectorstore build failed")),
    invoke := fun _ _ => .ok { answer := [], context := [] } }

/-- A chat environment with a built chain whose invocation raises a generic
exception (e.g. a model timeout). -/
def chatExnEnv : ChatEnv :=
  { initResult := .ok (),
    invoke := fun _ _ => .error (.exn (str2l "model timeout")) }

/-- A summary environment with a built chain whose invocation raises. -/
def summaryFailEnv : SummaryEnv :=
  { initResult := .ok (), loadDocs := .ok [],
    invoke := fun _ => .error (.exn (str2l "model timeout")) }

/-- A job-match environment with a built chain whose retrieval raises. -/
def jobMatchFailEnv : JobMatchEnv :=
  { initResult := .ok (),
    retrieve := fun _ => .error (.exn (str2l "index load failed")),
    invoke := fun _ => .ok [] }

/-- A concrete processed job-description document. -/
def jmDoc0 : JmDoc :=
  { page_content := str2l "A role requiring much experience",
    source := str2l "text_input" }

/-- One sequential chat call whose chain invocation raises a validation
error. -/
def c2FailCalls : List ChatCall :=
  [(str2l "hi", .error (.valueError tooShortMsg))]

/-- Two sequential chat calls that both succeed. -/
def c2OkCalls : List ChatCall :=
  [(str2l "What projects have you led?",
    .ok { answer := str2l "Several data projects.", context := [] }),
   (str2l "Tell me more",
    .ok { answer := str2l "Sure.", context := [] })]

/-- A route environment whose analysis collaborator would raise if it were
ever consulted. -/
def routeEnv0 : RouteEnv :=
  { analyzeRun := fun _ => .error (.exn (str2l "never reached")) }

/-- A probe environment: the index directory exists but is empty. -/
def emptyDirProbe : ProbeEnv :=
  { dirExists := true, listdir := .ok [], hasChromaFiles := false,
    loadAndCount := .ok 0,
    loadExisting := .error (.exn (str2l "unused")) }

/-- A build environment: the CV loads, the biography load fails, the
splitter passes documents through, persistence succeeds. -/
def buildEnv0 : BuildEnv :=
  { cvLoad := .ok [{ content := str2l "CV body" }],
    aboutLoad := .error (.exn (str2l "about_me.md missing")),
    split := fun _ _ docs => docs,
    chromaBuild := fun _ => .ok () }

/-! ## Helper lemmas on the string model -/

/-- Lowercasing preserves whitespace-ness. -/
theorem isPySpace_pyLower (c : Char) : isPySpace (pyLower c) = isPySpace c := by
  unfold pyLower
  cases hf : upperLowerPairs.find? (fun p => p.1 = c) with
  | none => simp
  | some pr =>
    have hmem : pr ∈ upperLowerPairs := List.mem_of_find?_eq_some hf
    have hpred := List.find?_some hf
    have hc : pr.1 = c := by simpa using hpred
    have hboth : ∀ q ∈ upperLowerPairs,
        isPySpace q.1 = false ∧ isPySpace q.2 = false := by decide
    have := hboth pr hmem
    simp [← hc, this.1, this.2]

/-- An infix made of non-whitespace characters survives `dropWhile
isPySpace`. -/
theorem infix_dropWhile_of_no_space {w l : PyStr} (hw : w ≠ [])
    (hns : ∀ c ∈ w, isPySpace c = false) (h : w <:+: l) :
    w <:+: l.dropWhile isPySpace := by
  induction l with
  | nil =>
    have : w = [] := by simpa using h.sublist
    exact absurd this hw
  | cons x xs ih =>
    by_cases hx : isPySpace x
    · obtain ⟨s, t, hst⟩ := h
      cases s with
      | nil =>
        cases w with
        | nil => exact absurd rfl hw
        | cons wh wt =>
          simp at hst
          have hwh : wh = x := hst.1
          have hnsw := hns wh (by simp)
          rw [hwh] at hnsw
          rw [hnsw] at hx
          simp at hx
      | cons a s' =>
        simp at hst
        have hxs : w <:+: xs := ⟨s', t, by simpa using hst.2⟩
        have := ih hxs
        simpa [List.dropWhile_cons, hx] using this
    · simpa [List.dropWhile_cons, hx] using h

/-- An infix made of non-whitespace characters survives `str.strip()`. -/
theorem infix_pyStrip_of_no_space {w l : PyStr} (hw : w ≠ [])
    (hns : ∀ c ∈ w, isPySpace c = false) (h : w <:+: l) :
    w <:+: pyStrip l := by
  unfold pyStrip
  have h1 := infix_dropWhile_of_no_space hw hns h
  have h2 : w.reverse <:+: (l.dropWhile isPySpace).reverse := h1.reverse
  have hw' : w.reverse ≠ [] := by simpa using hw
  have hns' : ∀ c ∈ w.reverse, isPySpace c = false := by
    intro c hcmem; exact hns c (by simpa using hcmem)
  have h3 := infix_dropWhile_of_no_space hw' hns' h2
  have h4 := h3.reverse
  simpa using h4

/-- Dropping leading whitespace commutes with lowercasing. -/
theorem dropWhile_map_pyLower (l : PyStr) :
    (l.map pyLower).dropWhile isPySpace =
      (l.dropWhile isPySpace).map pyLower := by
  induction l with
  | nil => rfl
  | cons x xs ih =>
    simp only [List.map_cons, List.dropWhile_cons, isPySpace_pyLower]
    by_cases hx : isPySpace x
    · simp [hx, ih]
    · simp [hx]

/-- Stripping commutes with lowercasing. -/
theorem pyStrip_pyLowerStr (l : PyStr) :
    pyStrip (pyLowerStr l) = pyLowerStr (pyStrip l) := by
  unfold pyStrip pyLowerStr
  rw [dropWhile_map_pyLower]
  rw [← List.map_reverse]
  rw [dropWhile_map_pyLower]
  rw [← List.map_reverse]

/-- Lowercasing does not change the stripped length. -/
theorem length_pyStrip_pyLowerStr (l : PyStr) :
    (pyStrip (pyLowerStr l)).length = (pyStrip l).length := by
  rw [pyStrip_pyLowerStr]
  exact List.length_map _ _

/-- On a query whose stripped length is below 3, the mock content guard
cannot fire: every denylisted word is ≥ 4 non-whitespace characters, so its
presence would force a stripped length ≥ 4. -/
theorem mockGuard_ok_of_short {q : PyStr} (h : (pyStrip q).length < 3) :
    mockGuardValidate q = .ok () := by
  have hfacts : ∀ w ∈ bannedWords,
      w ≠ [] ∧ (∀ c ∈ w, isPySpace c = false) ∧ 4 ≤ w.length := by decide
  have hno : bannedWords.any (fun w => containsSub w (pyLowerStr q)) = false := by
    rw [List.any_eq_false]
    intro w hw
    simp only [containsSub, decide_eq_false_iff_not]
    intro hinf
    have hinf' : w <:+: pyLowerStr q := of_decide_eq_true hinf
    obtain ⟨hne, hns, hlen⟩ := hfacts w hw
    have hstrip := infix_pyStrip_of_no_space hne hns hinf'
    have hle : w.length ≤ (pyStrip (pyLowerStr q)).length := hstrip.length_le
    rw [length_pyStrip_pyLowerStr] at hle
    omega
  unfold mockGuardValidate
  rw [hno]
  rfl

/-- Every query with stripped length below 3 is rejected with the
too-short message (the content guard provably cannot interfere, and the
`except` handler re-raises this known message). -/
theorem validate_short (cfg : SecurityConfig) {q : PyStr}
    (h : (pyStrip q).length < 3) :
    validate_query_input cfg q = .error (.valueError tooShortMsg) := by
  unfold validate_query_input validateQueryTry
  rw [mockGuard_ok_of_short h]
  rw [if_pos h]
  rfl

/-- An over-long query (default limits) whose stripped length is at least 3
and which passes the content guard is rejected with the too-long message. -/
theorem validate_long {q : PyStr}
    (h1 : defaultSecurity.maxQueryLength < q.length)
    (h2 : ¬ (pyStrip q).length < 3)
    (h3 : mockGuardValidate q = .ok ()) :
    validate_query_input defaultSecurity q =
      .error (.valueError (tooLongMsg defaultSecurity)) := by
  unfold validate_query_input validateQueryTry
  rw [h3]
  rw [if_neg h2]
  rw [if_pos h1]
  rfl

/-- Stripping a repetition of one non-whitespace character changes
nothing. -/
theorem pyStrip_replicate_nonspace {c : Char} (hc : isPySpace c = false)
    (n : Nat) : pyStrip (List.replicate n c) = List.replicate n c := by
  have hdw : ∀ m, List.dropWhile isPySpace (List.replicate m c) =
      List.replicate m c := by
    intro m
    cases m with
    | zero => rfl
    | succ k => simp [List.replicate_succ, List.dropWhile_cons, hc]
  unfold pyStrip
  rw [hdw, List.reverse_replicate, hdw, List.reverse_replicate]

/-- The content pre-check passes on the all-`'a'` query: no denylisted
word occurs in it. -/
theorem mockGuard_ok_longAs : mockGuardValidate longAs = .ok () := by
  have hmap : pyLowerStr longAs = longAs := by
    unfold pyLowerStr longAs
    rw [List.map_replicate]
    have ha : pyLower 'a' = 'a' := by decide
    rw [ha]
  have hno : bannedWords.any (fun w => containsSub w (pyLowerStr longAs)) =
      false := by
    rw [List.any_eq_false]
    intro w hw
    simp only [containsSub, decide_eq_false_iff_not]
    intro hinf
    have hinf' : w <:+: pyLowerStr longAs := of_decide_eq_true hinf
    have hall : ∀ x ∈ w, x = 'a' := by
      intro x hx
      have hmem : x ∈ pyLowerStr longAs := hinf'.sublist.subset hx
      rw [hmap, longAs] at hmem
      exact List.eq_of_mem_replicate hmem
    have hwitall : ∀ w' ∈ bannedWords, ∃ x ∈ w', ¬ x = 'a' := by decide
    obtain ⟨x, hxw, hxa⟩ := hwitall w hw
    exact hxa (hall x hxw)
  unfold mockGuardValidate
  rw [hno]
  rfl

/-- Stripping the all-whitespace query leaves nothing. -/
theorem pyStrip_overlongSpaces : pyStrip overlongSpaces = [] := by
  have h : List.dropWhile isPySpace overlongSpaces = [] := by
    rw [List.dropWhile_eq_nil_iff]
    intro x hx
    rw [overlongSpaces, List.mem_replicate] at hx
    rw [hx.2]
    decide
  simp [pyStrip, h]

/-! ## C3: length validation of chat queries -/

/-- Claim C3: (amended).  Every query whose trimmed length is below 3 fails
with the too-short error regardless of content; a query longer than the
configured maximum (default 1000) fails with the too-long error provided
its trimmed length is at least 3 and it passes the content pre-check that
runs before the length checks. -/
theorem C3_length_validation :
    (∀ (cfg : SecurityConfig) (q : PyStr), (pyStrip q).length < 3 →
      validate_query_input cfg q = .error (.valueError tooShortMsg))
    ∧ (∀ q : PyStr, defaultSecurity.maxQueryLength < q.length →
        3 ≤ (pyStrip q).length → mockGuardValidate q = .ok () →
        validate_query_input defaultSecurity q =
          .error (.valueError (tooLongMsg defaultSecurity))) := by
  constructor
  · intro cfg q h
    exact validate_short cfg h
  · intro q h1 h2 h3
    exact validate_long h1 (by omega) h3

/-- Claim C3: counterexample.  A query of 1001 spaces exceeds the default
maximum length of 1000, yet `validate_query_input` rejects it with the
too-short error, not the too-long error: the trimmed-length check runs
first, so the too-long outcome is not independent of content. -/
theorem C3_counterexample :
    defaultSecurity.maxQueryLength < overlongSpaces.length ∧
    validate_query_input defaultSecurity overlongSpaces =
      .error (.valueError tooShortMsg) ∧
    tooShortMsg ≠ tooLongMsg defaultSecurity := by
  refine ⟨?_, ?_, ?_⟩
  · rw [overlongSpaces, List.length_replicate]
    decide
  · exact validate_short _ (by rw [pyStrip_overlongSpaces]; decide)
  · decide

/-- Claim C3: witness: the amended theorem applied to a 2-character query and
to a clean 1001-character query. -/
theorem C3_witness :
    validate_query_input defaultSecurity (str2l "hi") =
      .error (.valueError tooShortMsg) ∧
    validate_query_input defaultSecurity longAs =
      .error (.valueError (tooLongMsg defaultSecurity)) :=
  ⟨C3_length_validation.1 defaultSecurity (str2l "hi") (by decide),
   C3_length_validation.2 longAs
     (by rw [longAs, List.length_replicate]; decide)
     (by rw [longAs, pyStrip_replicate_nonspace (by decide),
           List.length_replicate]
         decide)
     mockGuard_ok_longAs⟩

/-! ## C4: response output validation never fails outward -/

/-- Claim C4:.  `validate_response_output` is a total function: it returns the
response unchanged when the content checks pass and the fixed configured
fallback string on any check violation, never propagating an error. -/
theorem C4_response_validation_total (r : PyStr) :
    (validate_response_output r = r ∨
      validate_response_output r = chatFallbackResponse)
    ∧ (mockGuardValidate r = .ok () → validate_response_output r = r)
    ∧ (∀ e, mockGuardValidate r = .error e →
        validate_response_output r = chatFallbackResponse) := by
  cases hm : mockGuardValidate r with
  | ok u =>
    cases u
    refine ⟨Or.inl ?_, fun _ => ?_, fun e he => ?_⟩
    · unfold validate_response_output
      rw [hm]
    · unfold validate_response_output
      rw [hm]
    · cases he
  | error e =>
    refine ⟨Or.inr ?_, fun hok => ?_, fun e' _ => ?_⟩
    · unfold validate_response_output
      rw [hm]
    · cases hok
    · unfold validate_response_output
      rw [hm]

/-- Claim C4: witness: a clean response is returned unchanged; a response
violating the content check is replaced by the configured fallback. -/
theorem C4_witness :
    validate_response_output (str2l "Harsh has led several projects.") =
      str2l "Harsh has led several projects." ∧
    validate_response_output (str2l "this is shit") = chatFallbackResponse :=
  ⟨(C4_response_validation_total _).2.1 (by decide),
   (C4_response_validation_total _).2.2 (.exn inappropriateLanguageMsg)
     (by decide)⟩

/-! ## C9: accepted queries are returned verbatim -/

/-- Claim C9:.  Whenever `validate_query_input` accepts a query, the returned
string is the input itself: validation performs no sanitization, trimming
or rewriting. -/
theorem C9_accepted_query_identity (cfg : SecurityConfig) (q s : PyStr)
    (h : validate_query_input cfg q = .ok s) : s = q := by
  unfold validate_query_input at h
  cases htry : validateQueryTry cfg q with
  | error e => rw [htry] at h; cases h
  | ok val =>
    rw [htry] at h
    cases h
    unfold validateQueryTry at htry
    cases hm : mockGuardValidate q with
    | error e => rw [hm] at htry; cases htry
    | ok u =>
      cases u
      rw [hm] at htry
      split_ifs at htry
      injection htry with hh
      exact hh.symm

/-- Claim C9: witness: the identity theorem applied to a concrete accepted
query. -/
theorem C9_witness :
    validate_query_input defaultSecurity sampleQuery = .ok sampleQuery ∧
    sampleQuery = sampleQuery :=
  ⟨by decide,
   C9_accepted_query_identity defaultSecurity sampleQuery sampleQuery
     (by decide)⟩

/-! ## C10: asymmetric invalidity signalling of `validate_job_text` -/

/-- Claim C10:.  `validate_job_text` returns `False` exactly for empty,
non-string, or under-minimum (after trimming) input; past that gate,
over-length text, text lacking every English and German section keyword,
and text containing a dangerous tag or an `on*=` event handler each raise
`ValueError` (checked in that order); and it returns `True` exactly when
none of these conditions hold. -/
theorem C10_job_text_asymmetry (cfg : SecurityConfig) (v : PyVal) :
    (validate_job_text cfg v = .ok false ↔ jobFalseCond cfg v = true)
    ∧ (∀ s, v = .str s → jobFalseCond cfg v = false →
        ((pyStrip s).length > cfg.maxJobTextLength →
          validate_job_text cfg v = .error (.valueError (jobTooLongMsg cfg)))
        ∧ ((pyStrip s).length ≤ cfg.maxJobTextLength →
            hasAnyKeyword (pyStrip s) = false →
            validate_job_text cfg v = .error (.valueError missingSectionsMsg))
        ∧ ((pyStrip s).length ≤ cfg.maxJobTextLength →
            hasAnyKeyword (pyStrip s) = true →
            hasDangerousTag (pyStrip s) = true →
            validate_job_text cfg v = .error (.valueError harmfulTagsMsg))
        ∧ ((pyStrip s).length ≤ cfg.maxJobTextLength →
            hasAnyKeyword (pyStrip s) = true →
            hasDangerousTag (pyStrip s) = false →
            hasDangerousEvent (pyStrip s) = true →
            validate_job_text cfg v = .error (.valueError harmfulEventsMsg)))
    ∧ (validate_job_text cfg v = .ok true ↔
        ∃ s, v = .str s ∧ jobFalseCond cfg v = false ∧
          (pyStrip s).length ≤ cfg.maxJobTextLength ∧
          hasAnyKeyword (pyStrip s) = true ∧
          hasDangerousTag (pyStrip s) = false ∧
          hasDangerousEvent (pyStrip s) = false) := by
  cases v with
  | nonStr b =>
    refine ⟨?_, ?_, ?_⟩
    · simp [validate_job_text, jobFalseCond]
    · intro s heq
      cases heq
    · constructor
      · intro h
        simp [validate_job_text] at h
      · rintro ⟨s, hs, _⟩
        cases hs
  | str s =>
    by_cases h0 : s = []
    · subst h0
      refine ⟨?_, ?_, ?_⟩
      · simp [validate_job_text, jobFalseCond]
      · intro s' heq hfc
        rw [jobFalseCond] at hfc
        simp at hfc
      · constructor
        · intro h
          simp [validate_job_text] at h
        · rintro ⟨s', hs', hfc, _⟩
          rw [jobFalseCond] at hfc
          simp at hfc
    · by_cases h1 : (pyStrip s).length < cfg.minJobTextLength
      · have hfc : jobFalseCond cfg (.str s) = true := by
          simp [jobFalseCond, h1]
        have hval : validate_job_text cfg (.str s) = .ok false := by
          simp [validate_job_text, h0, h1]
        refine ⟨?_, ?_, ?_⟩
        · simp [hval, hfc]
        · intro s' heq hfc'
          cases heq
          rw [hfc] at hfc'
          cases hfc'
        · constructor
          · intro h
            rw [hval] at h
            cases h
          · rintro ⟨s', hs', hfc', _⟩
            cases hs'
            rw [hfc] at hfc'
            cases hfc'
      · have hfc : jobFalseCond cfg (.str s) = false := by
          simp only [jobFalseCond, Bool.or_eq_false_iff, decide_eq_false_iff_not]
          exact ⟨by simpa [List.isEmpty_iff] using h0, h1⟩
        by_cases h2 : (pyStrip s).length > cfg.maxJobTextLength
        · have hval : validate_job_text cfg (.str s) =
              .error (.valueError (jobTooLongMsg cfg)) := by
            simp [validate_job_text, h0, h1, h2]
          refine ⟨?_, ?_, ?_⟩
          · simp [hval, hfc]
          · intro s' heq hfc'
            cases heq
            exact ⟨fun _ => hval, fun hle _ => absurd h2 (by omega),
              fun hle _ _ => absurd h2 (by omega),
              fun hle _ _ _ => absurd h2 (by omega)⟩
          · constructor
            · intro h
              rw [hval] at h
              cases h
            · rintro ⟨s', hs', _, hle, _⟩
              cases hs'
              exact absurd h2 (by omega)
        · by_cases h3 : hasAnyKeyword (pyStrip s) = true
          · by_cases h4 : hasDangerousTag (pyStrip s) = true
            · have hval : validate_job_text cfg (.str s) =
                  .error (.valueError harmfulTagsMsg) := by
                simp [validate_job_text, h0, h1, h2, h3, h4]
              refine ⟨?_, ?_, ?_⟩
              · simp [hval, hfc]
              · intro s' heq hfc'
                cases heq
                refine ⟨fun hgt => absurd hgt h2, ?_, fun _ _ _ => hval, ?_⟩
                · intro _ hkw
                  rw [h3] at hkw
                  cases hkw
                · intro _ _ htag _
                  rw [h4] at htag
                  cases htag
              · constructor
                · intro h
                  rw [hval] at h
                  cases h
                · rintro ⟨s', hs', _, _, _, htag, _⟩
                  cases hs'
                  rw [h4] at htag
                  cases htag
            · have h4' : hasDangerousTag (pyStrip s) = false := by
                simpa using h4
              by_cases h5 : hasDangerousEvent (pyStrip s) = true
              · have hval : validate_job_text cfg (.str s) =
                    .error (.valueError harmfulEventsMsg) := by
                  simp [validate_job_text, h0, h1, h2, h3, h4', h5]
                refine ⟨?_, ?_, ?_⟩
                · simp [hval, hfc]
                · intro s' heq hfc'
                  cases heq
                  refine ⟨fun hgt => absurd hgt h2, ?_, ?_,
                    fun _ _ _ _ => hval⟩
                  · intro _ hkw
                    rw [h3] at hkw
                    cases hkw
                  · intro _ _ htag
                    exact absurd htag h4
                · constructor
                  · intro h
                    rw [hval] at h
                    cases h
                  · rintro ⟨s', hs', _, _, _, _, hev⟩
                    cases hs'
                    rw [h5] at hev
                    cases hev
              · have h5' : hasDangerousEvent (pyStrip s) = false := by
                  simpa using h5
                have hval : validate_job_text cfg (.str s) = .ok true := by
                  simp [validate_job_text, h0, h1, h2, h3, h4', h5']
                refine ⟨?_, ?_, ?_⟩
                · simp [hval, hfc]
                · intro s' heq hfc'
                  cases heq
                  refine ⟨fun hgt => absurd hgt h2, ?_, ?_, ?_⟩
                  · intro _ hkw
                    rw [h3] at hkw
                    cases hkw
                  · intro _ _ htag
                    exact absurd htag h4
                  · intro _ _ _ hev
                    exact absurd hev h5
                · constructor
                  · intro _
                    exact ⟨s, rfl, hfc, by omega, h3, h4', h5'⟩
                  · intro _
                    exact hval
          · have h3' : hasAnyKeyword (pyStrip s) = false := by
              simpa using h3
            have hval : validate_job_text cfg (.str s) =
                .error (.valueError missingSectionsMsg) := by
              simp [validate_job_text, h0, h1, h2, h3']
            refine ⟨?_, ?_, ?_⟩
            · simp [hval, hfc]
            · intro s' heq hfc'
              cases heq
              exact ⟨fun hgt => absurd hgt h2, fun _ _ => hval,
                fun _ hkw _ => absurd hkw h3,
                fun _ hkw _ _ => absurd hkw h3⟩
            · constructor
              · intro h
                rw [hval] at h
                cases h
              · rintro ⟨s', hs', _, _, hkw, _⟩
                cases hs'
                exact absurd hkw h3

/-- Claim C10: witness: the theorem applied at a small limit configuration to
inputs exercising the `False` return, each `ValueError` category, and the
`True` return. -/
theorem C10_witness :
    validate_job_text smallJobCfg (.str (str2l "too short")) = .ok false ∧
    validate_job_text smallJobCfg (.str (List.replicate 81 'b')) =
      .error (.valueError (jobTooLongMsg smallJobCfg)) ∧
    validate_job_text smallJobCfg (.str (List.replicate 20 'b')) =
      .error (.valueError missingSectionsMsg) ∧
    validate_job_text smallJobCfg
        (.str (str2l "experience required here <script> attack")) =
      .error (.valueError harmfulTagsMsg) ∧
    validate_job_text smallJobCfg
        (.str (str2l "experience required onload=alert")) =
      .error (.valueError harmfulEventsMsg) ∧
    validate_job_text smallJobCfg
        (.str (str2l "plenty of professional experience")) = .ok true :=
  ⟨(C10_job_text_asymmetry smallJobCfg _).1.mpr (by decide),
   ((C10_job_text_asymmetry smallJobCfg _).2.1 _ rfl (by decide)).1
     (by decide),
   (((C10_job_text_asymmetry smallJobCfg _).2.1 _ rfl (by decide)).2.1
     (by decide) (by decide)),
   (((C10_job_text_asymmetry smallJobCfg _).2.1 _ rfl (by decide)).2.2.1
     (by decide) (by decide) (by decide)),
   (((C10_job_text_asymmetry smallJobCfg _).2.1 _ rfl (by decide)).2.2.2
     (by decide) (by decide) (by decide) (by decide)),
   (C10_job_text_asymmetry smallJobCfg _).2.2.mpr
     ⟨_, rfl, by decide, by decide, by decide, by decide, by decide⟩⟩

/-! ## C1: pipeline invocations and escaping exceptions -/

/-- Claim C1: counterexample.  When chain initialization fails, the chat
pipeline's `get_completion` propagates the exception to the caller instead
of returning a result record: `_initialize_qa_chain()` runs before the
`try` block (the same structure holds in the other two pipelines). -/
theorem C1_counterexample :
    get_completion chatInitFailureEnv [] (str2l "What projects have you led?") =
      .error (.exn (str2l "vectorstore build failed")) := rfl

/-- Claim C1: (amended).  Once chain initialization has succeeded, none of the
three operations lets an exception escape: each returns a result record
carrying the computed answer or its fallback message.  Summary and
job-match failure records carry an `error` field with the exception text;
the chat record never carries an `error` field — a validation failure
surfaces as the error message standing as the answer, and any other
failure as the formatted fallback answer. -/
theorem C1_no_escape_after_init :
    (∀ (env : ChatEnv) (hist : List Turn) (q : PyStr),
      env.initResult = .ok () →
      exceptIsOk (get_completion env hist q) = true)
    ∧ (∀ (env : ChatEnv) (hist : List Turn) (q : PyStr) (m : PyStr),
        env.initResult = .ok () →
        env.invoke q (hist ++ [Turn.human q]) = .error (.exn m) →
        get_completion env hist q =
          .ok ({ answerAnswer := chatFallbackFormatted, sources := [],
                 error := none }, hist ++ [Turn.human q]))
    ∧ (∀ (env : ChatEnv) (hist : List Turn) (q : PyStr) (m : PyStr),
        env.initResult = .ok () →
        env.invoke q (hist ++ [Turn.human q]) = .error (.valueError m) →
        get_completion env hist q =
          .ok ({ answerAnswer := m, sources := [], error := none },
               hist ++ [Turn.human q]))
    ∧ (∀ (env : SummaryEnv) (style : PyStr), env.initResult = .ok () →
        exceptIsOk (generate_summary env style) = true)
    ∧ (∀ (env : SummaryEnv) (style : PyStr) (docs : List SourceDoc)
        (e : PyErr), env.initResult = .ok () →
        env.loadDocs = .ok docs → env.invoke docs = .error e →
        generate_summary env style =
          .ok { summary_md := summaryFallbackMsg, skills := [],
                style := none, timestamp := none, error := some e.msg })
    ∧ (∀ (cfg : SecurityConfig) (env : JobMatchEnv) (jd : JmDoc),
        env.initResult = .ok () →
        exceptIsOk (analyze_job_match cfg env jd) = true)
    ∧ (∀ (cfg : SecurityConfig) (env : JobMatchEnv) (jd : JmDoc)
        (e : PyErr), env.initResult = .ok () →
        env.retrieve jd.page_content = .error e →
        analyze_job_match cfg env jd =
          .ok { analysis := jobMatchFallbackMsg, job_source := jd.source,
                match_timestamp := none, relevant_sections := none,
                error := some e.msg }) := by
  refine ⟨?_, ?_, ?_, ?_, ?_, ?_, ?_⟩
  · intro env hist q hinit
    unfold get_completion
    rw [hinit]
    cases hinv : env.invoke q (hist ++ [Turn.human q]) with
    | ok out => simp [hinv, exceptIsOk]
    | error e => cases e <;> simp [hinv, exceptIsOk]
  · intro env hist q m hinit hinv
    unfold get_completion
    rw [hinit]
    simp [hinv]
  · intro env hist q m hinit hinv
    unfold get_completion
    rw [hinit]
    simp [hinv]
  · intro env style hinit
    unfold generate_summary
    rw [hinit]
    cases hload : env.loadDocs with
    | error e => simp [exceptIsOk]
    | ok docs =>
      cases hinv : env.invoke docs with
      | ok r => simp [hinv, exceptIsOk]
      | error e => simp [hinv, exceptIsOk]
  · intro env style docs e hinit hload hinv
    unfold generate_summary
    rw [hinit]
    simp [hload, hinv]
  · intro cfg env jd hinit
    unfold analyze_job_match
    rw [hinit]
    cases hret : env.retrieve jd.page_content with
    | error e => simp [exceptIsOk]
    | ok docs =>
      cases hvj : validate_job_text cfg
          (.str (jobDescHeader ++ jd.page_content)) with
      | error e => simp [hvj, exceptIsOk]
      | ok bres =>
        cases hinv : env.invoke
            ({ content := jobDescHeader ++ jd.page_content,
               source := str2l "job_description" } :: docs) with
        | ok r => simp [hvj, hinv, exceptIsOk]
        | error e => simp [hvj, hinv, exceptIsOk]
  · intro cfg env jd e hinit hret
    unfold analyze_job_match
    rw [hinit]
    simp [hret]

/-- Claim C1: witness: the amended theorem applied at concrete environments in
which the chain is initialized and an internal step fails. -/
theorem C1_witness :
    exceptIsOk (get_completion chatExnEnv [] (str2l "hi")) = true ∧
    get_completion chatExnEnv [] (str2l "hi") =
      .ok ({ answerAnswer := chatFallbackFormatted, sources := [],
             error := none }, [Turn.human (str2l "hi")]) ∧
    generate_summary summaryFailEnv (str2l "bullet") =
      .ok { summary_md := summaryFallbackMsg, skills := [], style := none,
            timestamp := none, error := some (str2l "model timeout") } ∧
    analyze_job_match defaultSecurity jobMatchFailEnv jmDoc0 =
      .ok { analysis := jobMatchFallbackMsg, job_source := jmDoc0.source,
            match_timestamp := none, relevant_sections := none,
            error := some (str2l "index load failed") } :=
  ⟨C1_no_escape_after_init.1 chatExnEnv [] (str2l "hi") rfl,
   C1_no_escape_after_init.2.1 chatExnEnv [] (str2l "hi")
     (str2l "model timeout") rfl rfl,
   C1_no_escape_after_init.2.2.2.2.1 summaryFailEnv (str2l "bullet") []
     (.exn (str2l "model timeout")) rfl rfl rfl,
   C1_no_escape_after_init.2.2.2.2.2.2 defaultSecurity jobMatchFailEnv
     jmDoc0 (.exn (str2l "index load failed")) rfl rfl⟩

/-! ## C2: conversation history growth -/

/-- Folding successful calls appends exactly the expected pair of turns per
call. -/
theorem runChatFrom_all_ok (calls : List ChatCall)
    (h : ∀ c ∈ calls, exceptIsOk c.2 = true) (hist : List Turn) :
    runChatFrom hist calls = hist ++ expectedTurns calls := by
  induction calls generalizing hist with
  | nil => simp [runChatFrom, expectedTurns]
  | cons c rest ih =>
    have hc : exceptIsOk c.2 = true := h c (by simp)
    cases hc2 : c.2 with
    | error e => rw [hc2] at hc; cases hc
    | ok out =>
      have hrest : ∀ c' ∈ rest, exceptIsOk c'.2 = true := by
        intro c' hc'
        exact h c' (by simp [hc'])
      have hstep : runChatFrom hist (c :: rest) =
          runChatFrom (hist ++ [Turn.human c.1, Turn.assistant out.answer])
            rest := by
        unfold runChatFrom
        simp [get_completion, hc2, List.append_assoc]
      rw [hstep, ih hrest]
      simp [expectedTurns, hc2, outAnswer, List.append_assoc]

/-- Each call contributes exactly two turns. -/
theorem expectedTurns_length (calls : List ChatCall) :
    (expectedTurns calls).length = 2 * calls.length := by
  induction calls with
  | nil => rfl
  | cons c rest ih =>
    simp [expectedTurns, ih]
    omega

/-- Claim C2: (amended).  After `K` sequential chat calls with no concurrent
callers, *each of whose chain invocations succeeds*, the conversation
history holds exactly `2K` turns: human then assistant per call, in call
order. -/
theorem C2_history_growth (calls : List ChatCall)
    (h : ∀ c ∈ calls, exceptIsOk c.2 = true) :
    runChatCalls calls = expectedTurns calls ∧
    (runChatCalls calls).length = 2 * calls.length := by
  have heq : runChatCalls calls = expectedTurns calls := by
    unfold runChatCalls
    simpa using runChatFrom_all_ok calls h []
  exact ⟨heq, by rw [heq]; exact expectedTurns_length calls⟩

/-- Claim C2: counterexample.  One sequential call whose chain invocation
raises (for example a query failing validation) appends only the human
turn: the history then holds 1 turn, not `2K = 2`. -/
theorem C2_counterexample :
    runChatCalls c2FailCalls = [Turn.human (str2l "hi")] ∧
    (runChatCalls c2FailCalls).length ≠ 2 * c2FailCalls.length := by
  constructor
  · rfl
  · intro hc
    simp [runChatCalls, runChatFrom, get_completion, c2FailCalls] at hc

/-- Claim C2: witness: the amended theorem applied to two successful calls. -/
theorem C2_witness :
    runChatCalls c2OkCalls = expectedTurns c2OkCalls ∧
    (runChatCalls c2OkCalls).length = 2 * c2OkCalls.length :=
  C2_history_growth c2OkCalls (by decide)

/-! ## C6: the chain is built at most once -/

/-- Once the chain field is non-null, every later invocation leaves both
the chain and the build counter unchanged. -/
theorem runInitAttempts_built (c : Chain) (n : Nat)
    (attempts : List (Except PyErr Chain)) :
    runInitAttempts (some c, n) attempts = (some c, n) := by
  induction attempts with
  | nil => rfl
  | cons a rest ih =>
    unfold runInitAttempts at ih ⊢
    simpa [initChainStep] using ih

/-- Claim C6:.  From fresh state, any sequence of invocations performs at most
one successful chain build, and once the chain field is non-null it is
never rebuilt or replaced: all subsequent invocations reuse it unchanged. -/
theorem C6_chain_built_once :
    (∀ attempts : List (Except PyErr Chain),
      (runInitAttempts (none, 0) attempts).2 ≤ 1)
    ∧ (∀ (c : Chain) (n : Nat) (attempts : List (Except PyErr Chain)),
        runInitAttempts (some c, n) attempts = (some c, n)) := by
  constructor
  · intro attempts
    induction attempts with
    | nil => simp [runInitAttempts]
    | cons a rest ih =>
      cases a with
      | ok c =>
        have : runInitAttempts (none, 0) (Except.ok c :: rest) =
            runInitAttempts (some c, 1) rest := rfl
        rw [this, runInitAttempts_built]
      | error e =>
        have : runInitAttempts (none, 0) (Except.error e :: rest) =
            runInitAttempts (none, 0) rest := rfl
        rw [this]
        exact ih
  · exact runInitAttempts_built

/-! ## C5: fail-safe rebuild of the vector store -/

/-- Every load failure inside the population probe, and an empty listing,
make the probe report "not populated". -/
theorem probe_not_populated (p : ProbeEnv)
    (h : p.listdir = .ok [] ∨ (∃ e, p.listdir = .error e) ∨
      (∃ e, p.loadAndCount = .error e)) :
    isVectorstorePopulated p = false := by
  rcases h with h | ⟨e, h⟩ | ⟨e, h⟩
  · simp [isVectorstorePopulated, h]
  · simp [isVectorstorePopulated, h]
  · unfold isVectorstorePopulated
    cases hls : p.listdir with
    | error e' => rfl
    | ok files =>
      by_cases hf : files.isEmpty
      · simp [hf]
      · by_cases hc : p.hasChromaFiles
        · simp [hf, hc, h]
        · simp [hf, hc]

/-- Claim C5:.  If the index directory exists but the probe encounters an
empty directory or any load failure, `get_vectorstore` does not propagate
the failure: it treats the index as not populated, performs the full
build, and (the build inputs being good) returns the populated built
index. -/
theorem C5_rebuild_fail_safe (p : ProbeEnv) (b : BuildEnv)
    (hdir : p.dirExists = true)
    (hprobe : p.listdir = .ok [] ∨ (∃ e, p.listdir = .error e) ∨
      (∃ e, p.loadAndCount = .error e))
    (hbuild : b.chromaBuild (buildChunks b) = .ok ())
    (hdocs : buildChunks b ≠ []) :
    get_vectorstore p b = setup_vectorstore b ∧
    get_vectorstore p b = .ok ⟨buildChunks b⟩ ∧
    populatedStore ⟨buildChunks b⟩ = true := by
  have hpop := probe_not_populated p hprobe
  have hbranch : get_vectorstore p b = setup_vectorstore b := by
    unfold get_vectorstore
    rw [hdir, hpop]
    rfl
  have hset : setup_vectorstore b = .ok ⟨buildChunks b⟩ := by
    unfold setup_vectorstore
    rw [hbuild]
  refine ⟨hbranch, by rw [hbranch, hset], ?_⟩
  simp [populatedStore, List.isEmpty_iff, hdocs]

/-- Claim C5: witness: the theorem applied to an existing-but-empty index
directory and a build whose CV source loads. -/
theorem C5_witness :
    get_vectorstore emptyDirProbe buildEnv0 = setup_vectorstore buildEnv0 ∧
    get_vectorstore emptyDirProbe buildEnv0 =
      .ok ⟨buildChunks buildEnv0⟩ ∧
    populatedStore ⟨buildChunks buildEnv0⟩ = true :=
  C5_rebuild_fail_safe emptyDirProbe buildEnv0 rfl (Or.inl rfl) rfl
    (by decide)

/-! ## C8: independent tolerance of document-load failures -/

/-- Claim C8:.  During the index build, the CV load and the biography load may
fail independently: a failed load contributes exactly the empty document
list (the build behaves as if that loader had returned no documents), the
surviving documents are tagged with their sources and split with chunk
size 1000 and overlap 200, and the only failure `setup_vectorstore` can
propagate is from the embedding/persistence step, never from the loads. -/
theorem C8_independent_load_tolerance :
    (∀ (b : BuildEnv) (e : PyErr), b.cvLoad = .error e →
      setup_vectorstore b = setup_vectorstore { b with cvLoad := .ok [] })
    ∧ (∀ (b : BuildEnv) (e : PyErr), b.aboutLoad = .error e →
        setup_vectorstore b =
          setup_vectorstore { b with aboutLoad := .ok [] })
    ∧ (∀ (b : BuildEnv) (cds ads : List RawDoc), b.cvLoad = .ok cds →
        b.aboutLoad = .ok ads →
        buildChunks b = b.split 1000 200
          (cds.map (tagDoc (str2l "cv")) ++
            ads.map (tagDoc (str2l "about_me"))))
    ∧ (∀ (b : BuildEnv) (e : PyErr), setup_vectorstore b = .error e →
        b.chromaBuild (buildChunks b) = .error e) := by
  refine ⟨?_, ?_, ?_, ?_⟩
  · intro b e hcv
    simp [setup_vectorstore, buildChunks, loadedCv, loadedAbout, hcv]
  · intro b e hab
    simp [setup_vectorstore, buildChunks, loadedCv, loadedAbout, hab]
  · intro b cds ads hcv hab
    simp [buildChunks, loadedCv, loadedAbout, hcv, hab]
  · intro b e hset
    unfold setup_vectorstore at hset
    cases hcb : b.chromaBuild (buildChunks b) with
    | ok u =>
      cases u
      rw [hcb] at hset
      cases hset
    | error e' =>
      rw [hcb] at hset
      cases hset
      rfl

/-- Claim C8: witness: the theorem applied to a build whose biography load
fails, whose CV load succeeds, and whose persistence step succeeds. -/
theorem C8_witness :
    setup_vectorstore buildEnv0 =
      setup_vectorstore { buildEnv0 with aboutLoad := .ok [] } ∧
    buildChunks { buildEnv0 with aboutLoad := .ok [] } =
      buildEnv0.split 1000 200
        ([{ content := str2l "CV body" }].map (tagDoc (str2l "cv")) ++
          ([] : List RawDoc).map (tagDoc (str2l "about_me"))) :=
  ⟨C8_independent_load_tolerance.2.1 buildEnv0
     (.exn (str2l "about_me.md missing")) rfl,
   C8_independent_load_tolerance.2.2.1 { buildEnv0 with aboutLoad := .ok [] }
     [{ content := str2l "CV body" }] [] rfl rfl⟩

/-! ## C7: short job text is rejected before retrieval or generation -/

/-- Claim C7:.  A job-match request whose text strips to fewer than the
configured minimum of 50 characters is answered with an HTTP 400 carrying
a length-category `ValueError` message, and the outcome is independent of
the analysis collaborator: no retrieval or generation step influences the
response. -/
theorem C7_short_job_text_400 (text : PyStr)
    (h : (pyStrip text).length < defaultSecurity.minJobTextLength) :
    (∀ env1 env2 : RouteEnv,
      job_match_endpoint env1 text = job_match_endpoint env2 text)
    ∧ (∀ env : RouteEnv,
        job_match_endpoint env text = .clientError 400 requiredMsg ∨
        job_match_endpoint env text =
          .clientError 400 (atLeastMsg defaultSecurity)) := by
  by_cases h0 : text = []
  · have hp : process_job_description text = .error (.valueError requiredMsg) := by
      simp [process_job_description, h0]
    constructor
    · intro env1 env2
      simp [job_match_endpoint, hp]
    · intro env
      left
      simp [job_match_endpoint, hp]
  · have hp : process_job_description text =
        .error (.valueError (atLeastMsg defaultSecurity)) := by
      unfold process_job_description process_text
      rw [if_neg h0, if_pos (Or.inr h)]
    constructor
    · intro env1 env2
      simp [job_match_endpoint, hp]
    · intro env
      right
      simp [job_match_endpoint, hp]

/-- Claim C7: witness: the theorem applied to a 40-character job text, with a
route environment whose analysis collaborator would fail if consulted. -/
theorem C7_witness :
    job_match_endpoint routeEnv0 (List.replicate 40 'x') =
        .clientError 400 requiredMsg ∨
    job_match_endpoint routeEnv0 (List.replicate 40 'x') =
        .clientError 400 (atLeastMsg defaultSecurity) :=
  (C7_short_job_text_400 (List.replicate 40 'x')
    (by rw [pyStrip_replicate_nonspace (by decide), List.length_replicate]
        decide)).2 routeEnv0

end HireHarsh
